import Mathlib

/-
Verification of the RF24 example programs (Linux `acknowledgementPayloads.cpp`,
Linux `GettingStarted`, and the Arduino `ManualAcknowledgements` sketch) against
their natural-language specification.

The C++ sources are shallowly embedded:
* C strings (`char*` / `std::string`) are lists of character codes (`List Int`,
  signed `char` semantics); the first character of a possibly-empty C string is
  its head or the NUL terminator 0.
* Calls into the RF24 driver and console output are recorded as explicit
  actions (`Act`) in the order the program performs them.
* The interactive loops (`setRole`, `master`, `slave`) are recursions over the
  finite prefix of their external inputs (stdin lines, `radio.write` reports,
  `radio.available` polls, clock readings) that the run consumes.
* Machine integers are `Nat`/`Int` with explicit reductions modulo 2^32 or 256
  where the C code narrows; C `/` on signed operands is `Int.tdiv`
  (truncation toward zero), and conversion to an unsigned type reduces
  modulo 2^width.
-/

namespace RF24

/-- A C string: the list of its character codes (signed `char`, so codes are
read as integers; ASCII inputs lie in 0..127). The NUL terminator is not
stored. -/
abbrev CStr := List Int

/-- Reading `s[0]` of a C string: the first character, or the NUL terminator
(code 0) when the string is empty. -/
def cHead (s : CStr) : Int := s.headD 0

/-- Character codes of the option string <-n>. -/
def optShortNode : CStr := [45, 110]

/-- Character codes of the option string <--node>. -/
def optLongNode : CStr := [45, 45, 110, 111, 100, 101]

/-- Character codes of the option string <-r>. -/
def optShortRole : CStr := [45, 114]

/-- Character codes of the option string <--role>. -/
def optLongRole : CStr := [45, 45, 114, 111, 108, 101]

/-- Outcome of the CLI argument scan of `acknowledgementPayloads.cpp`
`main`, lines 84-122: either some recognized option had an out-of-range
value (`printHelp` and `return 0`), or the scan finished with the final
`foundArgNode`, `radioNumber`, `foundArgRole`, `role` values. -/
inductive ScanResult
  | invalid
  | done (foundArgNode radioNumber foundArgRole role : Bool)
deriving DecidableEq

/-- Embeds the `while (a < argc)` argument scan of `acknowledgementPayloads.cpp`
`main` (lines 85-116).  Arguments after the program name are consumed in
(option, value) pairs.  `-n`/`--node` and `-r`/`--role` accept a value whose
first character `c` satisfies `c - 48 <= 1` (in promoted `int` arithmetic) and
record whether that character minus 48 equals 1; any other first character is
an invalid option.  A pair whose option matches neither flag is skipped
untouched.  `main` only enters the scan after checking `(argc - 1) % 2 == 0`,
so the single-argument case below is unreachable there; it is mapped to
`invalid` for totality. -/
def scanArgs : List CStr → Bool → Bool → Bool → Bool → ScanResult
  | [], foundArgNode, radioNumber, foundArgRole, role =>
      ScanResult.done foundArgNode radioNumber foundArgRole role
  | opt :: val :: rest, foundArgNode, radioNumber, foundArgRole, role =>
      if opt = optShortNode ∨ opt = optLongNode then
        if cHead val - 48 ≤ 1 then
          scanArgs rest true (decide (cHead val - 48 = 1)) foundArgRole role
        else ScanResult.invalid
      else if opt = optShortRole ∨ opt = optLongRole then
        if cHead val - 48 ≤ 1 then
          scanArgs rest foundArgNode radioNumber true (decide (cHead val - 48 = 1))
        else ScanResult.invalid
      else scanArgs rest foundArgNode radioNumber foundArgRole role
  | [_], _, _, _, _ => ScanResult.invalid

/-- Observable actions of the example programs: console output, stdin prompts,
and the calls into the RF24 driver library, in program order. -/
inductive Act
  | radioBegin
  | printNotResponding
  | printHelp
  | printProgName
  | promptNode
  | enableDynamicPayloads
  | enableAckPayload
  | setPALevel
  | openWritingPipe (radioNumber : Bool)
  | openReadingPipe (otherRadio : Bool)
  | installSigHandler
  | callSetRole
  | callMaster
  | callSlave
  | printIntro
  | gsOpenWritingPipe
  | gsOpenReadingPipe
  | printInterrupt (signal : Int)
  | powerDown
deriving DecidableEq

/-- Whether an action is a call into the radio driver (as opposed to console
I/O, stdin prompting, or signal-handler installation). -/
def isRadioCall : Act → Bool
  | Act.radioBegin => true
  | Act.enableDynamicPayloads => true
  | Act.enableAckPayload => true
  | Act.setPALevel => true
  | Act.openWritingPipe _ => true
  | Act.openReadingPipe _ => true
  | Act.gsOpenWritingPipe => true
  | Act.gsOpenReadingPipe => true
  | Act.powerDown => true
  | _ => false

/-- Embeds the interactive radio-number selection of
`acknowledgementPayloads.cpp` `main`, lines 128-134:
`radioNumber = input.length() > 0 && (uint8_t)input[0] == 49;`.
The entered line is a list of signed-`char` codes; the cast to `uint8_t`
reduces the first code modulo 256, and `&&` short-circuits on the empty
line. -/
def radioNumberFromInput (line : CStr) : Bool :=
  match line with
  | [] => false
  | c :: _ => decide (c % 256 = 49)

/-- Embeds the tail of `acknowledgementPayloads.cpp` `main` after a successful
argument scan (lines 126-172): print `argv[0]`; prompt for the radio number on
stdin when `-n`/`--node` was absent (the prompt overwrites the default);
configure the radio (`enableDynamicPayloads`, `enableAckPayload`,
`setPALevel`, `openWritingPipe(address[radioNumber])`,
`openReadingPipe(1, address[!radioNumber])`); install the SIGINT handler; then
either call `setRole()` (no `-r`/`--role` given) or dispatch on the role
flag. -/
def ackProceed (foundArgNode radioNumber foundArgRole role : Bool)
    (stdin : List CStr) : List Act :=
  let rn := if foundArgNode then radioNumber
            else radioNumberFromInput (stdin.headD [])
  Act.printProgName ::
    (if foundArgNode then [] else [Act.promptNode]) ++
    [Act.enableDynamicPayloads, Act.enableAckPayload, Act.setPALevel,
     Act.openWritingPipe rn, Act.openReadingPipe (!rn),
     Act.installSigHandler,
     if foundArgRole then (if role then Act.callMaster else Act.callSlave)
     else Act.callSetRole]

/-- Embeds `main` of `acknowledgementPayloads.cpp` (lines 58-173).  Inputs:
whether `radio.begin()` succeeds, the argument vector (program name first),
and the stdin lines.  Output: the action trace and the process exit code.
Default values before parsing: `radioNumber = 1`, `role = false`,
`foundArgNode = foundArgRole = false`. -/
def ackMain : Bool → List CStr → List CStr → List Act × Nat
  | false, _, _ => ([Act.radioBegin, Act.printNotResponding], 0)
  | true, argv, stdin =>
    let args := argv.tail
    if args.length ≠ 0 then
      if args.length % 2 ≠ 0 then ([Act.radioBegin, Act.printHelp], 0)
      else
        match scanArgs args false true false false with
        | ScanResult.invalid => ([Act.radioBegin, Act.printHelp], 0)
        | ScanResult.done foundArgNode radioNumber foundArgRole role =>
          if !foundArgNode && !foundArgRole then
            ([Act.radioBegin, Act.printHelp], 0)
          else
            (Act.radioBegin ::
              ackProceed foundArgNode radioNumber foundArgRole role stdin, 0)
    else (Act.radioBegin :: ackProceed false true false false stdin, 0)

/-- Embeds `main` of the `GettingStarted` Linux example (part_000 lines
258-285).  It is declared `int main()` with no parameters: the program
receives no command-line data at all.  On a failed hardware check it prints
and returns 0; otherwise it prints the intro, configures the radio, calls
`setRole()`, and returns 0. -/
def gsMain (beginOk : Bool) : List Act × Nat :=
  if beginOk then
    ([Act.radioBegin, Act.printIntro, Act.setPALevel,
      Act.gsOpenWritingPipe, Act.gsOpenReadingPipe, Act.callSetRole], 0)
  else ([Act.radioBegin, Act.printNotResponding], 0)

/-- The `GettingStarted` example as invoked with an argument vector: since its
`main` takes no parameters, the argument vector is ignored entirely. -/
def gsMainArgv (_argv : List CStr) (beginOk : Bool) : List Act × Nat :=
  gsMain beginOk

/-- Outcome of the Arduino sketch's `setup()` (part_000 lines 48-90). -/
inductive SetupOutcome
  | hangAfterPrint
  | configured (role : Bool)
deriving DecidableEq

/-- Embeds `setup()` of the Arduino `ManualAcknowledgements` sketch (part_000
lines 48-90).  When `radio.begin()` fails it prints the not-responding
message and then executes `while (1) {}` — an infinite loop with an empty
body, represented by the `hangAfterPrint` outcome: `setup` never returns and
the sketch never exits.  Otherwise `setup` returns normally with the node
configured for the given role. -/
def arduinoSetup (beginOk : Bool) (role : Bool) : SetupOutcome :=
  if beginOk then SetupOutcome.configured role else SetupOutcome.hangAfterPrint

/-- Whether `setup()` returns (so the sketch proceeds to `loop()`), as opposed
to hanging forever in `while (1) {}`. -/
def setupReturns : SetupOutcome → Bool
  | SetupOutcome.hangAfterPrint => false
  | SetupOutcome.configured _ => true

/-- Embeds `programInterruptHandler` of `acknowledgementPayloads.cpp` (lines
306-310): print the interrupt notice, call `radio.powerDown()`, then
`exit(0)`.  Result: the handler's action trace and the exit code passed to
`exit`. -/
def programInterruptHandler (s : Int) : List Act × Nat :=
  ([Act.printInterrupt s, Act.powerDown], 0)

/-- Events of the `setRole()` menu loop. -/
inductive RoleEvent
  | menuPrompt
  | callMaster
  | callSlave
  | printInvalid (c : Int)
deriving DecidableEq

/-- Embeds `setRole()` (identical in `acknowledgementPayloads.cpp` lines
180-199 and in the `GettingStarted` example, part_000 lines 291-310) over the
list of stdin lines the loop consumes.  Each iteration prints the three-line
menu (`menuPrompt`) and reads a line; a line starting with T/t calls
`master()` and re-enters the loop, R/r calls `slave()` and re-enters, Q/q
breaks out of the menu, any other non-empty line prints the invalid-input
message and re-enters, and an empty line re-enters without dispatching.
Character codes: T = 84, t = 116, R = 82, r = 114, Q = 81, q = 113. -/
def setRoleTrace : List CStr → List RoleEvent
  | [] => []
  | line :: rest =>
    RoleEvent.menuPrompt ::
      (match line with
       | [] => setRoleTrace rest
       | c :: _ =>
         if c = 84 ∨ c = 116 then RoleEvent.callMaster :: setRoleTrace rest
         else if c = 82 ∨ c = 114 then RoleEvent.callSlave :: setRoleTrace rest
         else if c = 81 ∨ c = 113 then []
         else RoleEvent.printInvalid c :: setRoleTrace rest)

/-- One iteration's external inputs for the ACK-payloads `master()` loop: the
report of `radio.write` and, when the write succeeded, the counter byte of
the ACK payload found by `radio.available` (none when the ACK packet was
empty). -/
structure MIter where
  report : Bool
  ack : Option Nat
deriving DecidableEq

/-- Embeds the `while (failures < 6)` loop of `master()` in
`acknowledgementPayloads.cpp` (lines 209-245) over the iteration inputs the
run consumes.  State: the `failures` counter and the global `payload.counter`
byte.  A successful write with an ACK payload stores the received counter
plus one (a `uint8_t`, so modulo 256); a failed write increments `failures`
and leaves the payload counter alone.  Returns the executed iterations, the
final `failures` value, and the final payload counter. -/
def ackMasterRun : List MIter → Nat → Nat → List MIter × Nat × Nat
  | [], failures, pc => ([], failures, pc)
  | it :: rest, failures, pc =>
    if failures < 6 then
      let pc' := if it.report then
                   (match it.ack with
                    | some c => (c + 1) % 256
                    | none => pc)
                 else pc
      let failures' := if it.report then failures else failures + 1
      let r := ackMasterRun rest failures' pc'
      (it :: r.1, r.2)
    else ([], failures, pc)

/-- Embeds the `while (failure < 6)` loop of `master()` in the
`GettingStarted` example (part_000 lines 322-343) over the list of
`radio.write` reports the run consumes.  The float payload incremented on
success does not influence control flow and is not modeled.  Returns the
executed iterations' reports and the final `failure` value. -/
def gsMasterRun : List Bool → Nat → List Bool × Nat
  | [], failure => ([], failure)
  | r :: rest, failure =>
    if failure < 6 then
      let failure' := if r then failure else failure + 1
      let rec' := gsMasterRun rest failure'
      (r :: rec'.1, rec'.2)
    else ([], failure)

/-- Number of failed reports in a list (the transmissions for which
`radio.write` returned false). -/
def countFail (l : List Bool) : Nat := (l.filter (fun r => !r)).length

/-- Length of the longest run of consecutive failed reports in a list. -/
def maxFailRun (l : List Bool) : Nat :=
  (l.foldl (fun s r => if r then (0, s.2) else (s.1 + 1, max (s.1 + 1) s.2))
    ((0 : Nat), (0 : Nat))).2

/-- A reception observed by the ACK-payloads `slave()` loop: the counter byte
of the received payload and the value `time(nullptr)` returns when the
timeout timer is reset right after processing it. -/
structure SRecv where
  counter : Nat
  resetTime : Int
deriving DecidableEq

/-- One iteration's external inputs for the ACK-payloads `slave()` loop: the
value `time(nullptr)` returns at the `while` condition, and the reception
`radio.available` reports (none when no payload arrived). -/
structure SIter where
  checkTime : Int
  recv : Option SRecv
deriving DecidableEq

/-- Embeds the `while (time(nullptr) - startTimer < 6)` loop of `slave()` in
`acknowledgementPayloads.cpp` (lines 260-281) over the iteration inputs the
run consumes.  State: `startTimer` and the global `payload.counter` byte.  An
iteration whose condition check fails ends the loop; one that receives a
payload stores the received counter plus one (modulo 256, `uint8_t`), loads
the next ACK payload, and resets `startTimer` to a fresh `time(nullptr)`
reading.  Returns the executed iterations and the final payload counter. -/
def ackSlaveRun : List SIter → Int → Nat → List SIter × Nat
  | [], _, pc => ([], pc)
  | it :: rest, start, pc =>
    if it.checkTime - start < 6 then
      let r := ackSlaveRun rest
        (match it.recv with | some rv => rv.resetTime | none => start)
        (match it.recv with | some rv => (rv.counter + 1) % 256 | none => pc)
      (it :: r.1, r.2)
    else ([], pc)

/-- One iteration's external inputs for the `GettingStarted` `slave()` loop:
the `time(nullptr)` reading at the `while` condition and, when a payload was
available, the fresh `time(nullptr)` reading used to reset the timer.  The
float payload read from the FIFO does not influence control flow and is not
modeled. -/
structure GIter where
  checkTime : Int
  recv : Option Int
deriving DecidableEq

/-- Embeds the `while (time(nullptr) - startTimer < 6)` loop of `slave()` in
the `GettingStarted` example (part_000 lines 357-368): same timeout control
structure as the ACK-payloads slave, with no payload state.  Returns the
executed iterations. -/
def gsSlaveRun : List GIter → Int → List GIter
  | [], _ => []
  | it :: rest, start =>
    if it.checkTime - start < 6 then
      it :: gsSlaveRun rest
        (match it.recv with | some rt => rt | none => start)
    else []

/-- The value of `startTimer` after the ACK-payloads slave has processed a
given prefix of iterations, starting from `start`: the reset time of the last
reception in the prefix, or `start` when the prefix holds no reception. -/
def lastReset (start : Int) : List SIter → Int
  | [] => start
  | it :: rest =>
    lastReset (match it.recv with
               | some rv => rv.resetTime
               | none => start) rest

/-- The value of `startTimer` after the `GettingStarted` slave has processed a
given prefix of iterations, starting from `start`. -/
def lastResetG (start : Int) : List GIter → Int
  | [] => start
  | it :: rest =>
    lastResetG (match it.recv with
                | some rt => rt
                | none => start) rest

/-- Conversion of a signed integer value to `uint32_t`: reduction modulo
2^32 (C++ conversion to an unsigned type). -/
def toUInt32 (x : Int) : Nat := (x % 4294967296).toNat

/-- Embeds `getMicros()` (identical in `acknowledgementPayloads.cpp` lines
290-299 and part_000 lines 377-386).
`uint32_t seconds = endTimer.tv_sec - startTimer.tv_sec;` subtracts the
`time_t` (signed, wide) fields and narrows to `uint32_t` (modulo 2^32).
`uint32_t useconds = (endTimer.tv_nsec - startTimer.tv_nsec) / 1000;`
subtracts the signed `long` fields, divides by 1000 in signed arithmetic
(C++ division truncates toward zero, `Int.tdiv`), and narrows modulo 2^32.
`return ((seconds) * 1000 + useconds) + 0.5;` computes
`seconds * 1000 + useconds` in 32-bit unsigned arithmetic (modulo 2^32); the
detour through `double` (`+ 0.5`, then conversion back to `uint32_t`) is the
identity, because every `uint32_t` value `v` is exact in `double`, `v + 0.5`
is exact as well, and the conversion truncates toward zero back to `v`. -/
def getMicros (startSec startNsec endSec endNsec : Int) : Nat :=
  let seconds := toUInt32 (endSec - startSec)
  let useconds := toUInt32 (Int.tdiv (endNsec - startNsec) 1000)
  (seconds * 1000 + useconds) % 4294967296

/-- Modelled from the claim's wording (not from the source), for comparison
with `getMicros`: the value
`((end.tv_sec - start.tv_sec) * 1000 + (end.tv_nsec - start.tv_nsec) / 1000)`
reduced modulo 2^32, with the subtractions and the division performed in
unsigned 32-bit arithmetic. -/
def getMicrosClaimed (startSec startNsec endSec endNsec : Int) : Nat :=
  let seconds := toUInt32 (endSec - startSec)
  let useconds := toUInt32 (endNsec - startNsec) / 1000
  (seconds * 1000 + useconds) % 4294967296

/-- The truly elapsed number of whole microseconds between the two
timestamps. -/
def elapsedMicros (startSec startNsec endSec endNsec : Int) : Int :=
  ((endSec * 1000000000 + endNsec) - (startSec * 1000000000 + startNsec)) / 1000

/-- The (option, value) pairs the argument scan visits: arguments after the
program name grouped two at a time (a trailing unpaired argument is never
visited, since `main` requires an even count before scanning). -/
def argPairs : List CStr → List (CStr × CStr)
  | opt :: val :: rest => (opt, val) :: argPairs rest
  | _ => []

/-- Whether an option-position argument is <-n> or <--node>. -/
def isNodeOpt (s : CStr) : Bool := s == optShortNode || s == optLongNode

/-- Whether an option-position argument is <-r> or <--role>. -/
def isRoleOpt (s : CStr) : Bool := s == optShortRole || s == optLongRole

/-- Whether a value fails the scan's validity test: its first character `c`
has `c - 48 > 1` in promoted `int` arithmetic. -/
def badValue (v : CStr) : Bool := decide (1 < cHead v - 48)

/-- Modelled from the amended claim's wording: the argument vectors (after
the program name) on which `main` prints the usage text and exits before
configuring the radio: an odd number of arguments, or a recognized
`-n`/`--node`/`-r`/`--role` option paired with a value whose first character
fails the `c - 48 <= 1` test, or no recognized option in any option
position. -/
def scanRejects (args : List CStr) : Bool :=
  args.length % 2 == 1 ||
  (argPairs args).any (fun p => (isNodeOpt p.1 || isRoleOpt p.1) && badValue p.2) ||
  !((argPairs args).any (fun p => isNodeOpt p.1 || isRoleOpt p.1))

/-- The iteration inputs of the counterexample run for the transmitter loop:
five failed writes, a successful write acknowledged with a zero-counter ACK
payload, another failed write, and one more successful write. -/
def c1Input : List MIter :=
  [⟨false, none⟩, ⟨false, none⟩, ⟨false, none⟩, ⟨false, none⟩, ⟨false, none⟩,
   ⟨true, some 0⟩, ⟨false, none⟩, ⟨true, some 0⟩]

end RF24

namespace RF24

/-- Claim C3 counterexample: for the Arduino `ManualAcknowledgements` sketch,
when `radio.begin()` returns false, `setup()` prints the not-responding
message and then holds in `while (1) {}`: it never returns, so the program
does not exit, contrary to the claim that every example program exits. -/
theorem begin_failure_arduino_cex :
    arduinoSetup false false = SetupOutcome.hangAfterPrint ∧
    setupReturns (arduinoSetup false false) = false :=
  ⟨rfl, rfl⟩

/-- Claim C3 (amended): when `radio.begin()` fails at startup, each Linux
example (`acknowledgementPayloads`, `GettingStarted`) prints the
not-responding message and returns 0 from `main`; the Arduino sketch prints
the message and then hangs forever in `while (1) {}`, never returning from
`setup`. -/
theorem begin_failure_behavior :
    (∀ argv stdin : List CStr,
        ackMain false argv stdin = ([Act.radioBegin, Act.printNotResponding], 0)) ∧
    gsMain false = ([Act.radioBegin, Act.printNotResponding], 0) ∧
    (∀ role : Bool,
        arduinoSetup false role = SetupOutcome.hangAfterPrint ∧
        setupReturns (arduinoSetup false role) = false) :=
  ⟨fun _ _ => rfl, rfl, fun _ => ⟨rfl, rfl⟩⟩

/-- Claim C5: every terminating execution path of the Linux examples yields
process exit code 0: every branch of `main` in `acknowledgementPayloads.cpp`
(hardware-check failure, malformed CLI arguments, and the normal path),
every branch of `main` in `GettingStarted`, and the SIGINT handler's
`exit(0)` call. -/
theorem exit_code_always_zero :
    (∀ (beginOk : Bool) (argv stdin : List CStr),
        (ackMain beginOk argv stdin).2 = 0) ∧
    (∀ beginOk : Bool, (gsMain beginOk).2 = 0) ∧
    (∀ s : Int, (programInterruptHandler s).2 = 0) := by
  refine ⟨?_, ?_, fun _ => rfl⟩
  · intro beginOk argv stdin
    cases beginOk with
    | false => rfl
    | true =>
      simp only [ackMain]
      repeat' split
      all_goals rfl
  · intro beginOk
    unfold gsMain
    split <;> rfl

/-- Claim C7: the SIGINT handler of the ACK-payloads example prints the
interrupt notice, calls `radio.powerDown()`, and only then exits with code 0;
`powerDown` is the handler's sole radio call.  `main` installs this handler
(shown at a concrete invocation). -/
theorem interrupt_handler_powers_down :
    (∀ s : Int,
        programInterruptHandler s = ([Act.printInterrupt s, Act.powerDown], 0) ∧
        (programInterruptHandler s).1.filter (fun a => isRadioCall a) =
          [Act.powerDown]) ∧
    Act.installSigHandler ∈ (ackMain true [[112]] []).1 := by
  exact ⟨fun s => ⟨rfl, rfl⟩, by decide⟩

/-- Claim C10: in the ACK-payloads example's interactive radio-number prompt,
`radioNumber` is set to 1 exactly when the entered line is non-empty and its
first character is ASCII 49 (the digit 1); every other line selects radio
0.  The hypothesis restricts the line to `char` values (signed 8-bit). -/
theorem radio_number_prompt_iff (line : CStr)
    (hrange : ∀ c ∈ line, -128 ≤ c ∧ c ≤ 127) :
    radioNumberFromInput line = true ↔ line.head? = some 49 := by
  cases line with
  | nil => simp [radioNumberFromInput]
  | cons c cs =>
    have h := hrange c (by simp)
    simp only [radioNumberFromInput, List.head?_cons, Option.some.injEq,
      decide_eq_true_eq]
    omega

/-- Witness for claim C10 at the concrete line consisting of the single
character ASCII 49. -/
theorem radio_number_prompt_iff_witness :
    radioNumberFromInput [49] = true ↔ ([49] : CStr).head? = some 49 :=
  radio_number_prompt_iff [49] (by decide)

/-- Claim C9 counterexample: at start = (0 s, 1000 ns), end = (0 s, 0 ns) the
code computes the nanosecond difference and its division by 1000 in signed
arithmetic (giving -1) and only then narrows to `uint32_t` (giving
4294967295), whereas the claimed unsigned-32-bit subtraction-then-division
gives 4294966: the two disagree. -/
theorem getMicros_unsigned_cex :
    getMicros 0 1000 0 0 = 4294967295 ∧
    getMicrosClaimed 0 1000 0 0 = 4294966 ∧
    getMicros 0 1000 0 0 ≠ getMicrosClaimed 0 1000 0 0 := by
  refine ⟨by decide, by decide, by decide⟩

end RF24

namespace RF24

theorem gsMaster_exec_iff (rs : List Bool) (f i : Nat) :
    i < ((gsMasterRun rs f).1).length ↔
      (i < rs.length ∧ f + countFail (rs.take i) < 6) := by
  induction rs generalizing f i with
  | nil => simp [gsMasterRun]
  | cons r rest ih =>
    by_cases hf : f < 6
    · cases i with
      | zero => simp [gsMasterRun, hf, countFail]
      | succ j =>
        have h := ih (if r then f else f + 1) j
        simp only [gsMasterRun, hf, if_true] at h ⊢
        simp only [List.length_cons, Nat.succ_lt_succ_iff, List.take_succ_cons]
        rw [h]
        cases r <;> (simp [countFail]; try omega)
    · cases i <;> (simp [gsMasterRun, hf, countFail]; try omega)

theorem gsMaster_take_eq (rs : List Bool) (f : Nat) :
    (gsMasterRun rs f).1 = rs.take ((gsMasterRun rs f).1.length) := by
  induction rs generalizing f with
  | nil => simp [gsMasterRun]
  | cons r rest ih =>
    by_cases hf : f < 6
    · simp only [gsMasterRun, hf, if_true, List.length_cons, List.take_succ_cons]
      rw [← ih (if r then f else f + 1)]
    · simp [gsMasterRun, hf]

theorem ackMaster_bridge (iters : List MIter) (f pc : Nat) :
    (ackMasterRun iters f pc).1.map (fun it => it.report) =
      (gsMasterRun (iters.map (fun it => it.report)) f).1 ∧
    (ackMasterRun iters f pc).1.length =
      (gsMasterRun (iters.map (fun it => it.report)) f).1.length := by
  induction iters generalizing f pc with
  | nil => simp [ackMasterRun, gsMasterRun]
  | cons it rest ih =>
    by_cases hf : f < 6
    · simp only [ackMasterRun, gsMasterRun, List.map_cons, hf, if_true,
        List.length_cons]
      exact ⟨by rw [(ih _ _).1], by rw [(ih _ _).2]⟩
    · simp [ackMasterRun, gsMasterRun, hf]

theorem ackMaster_take_eq (iters : List MIter) (f pc : Nat) :
    (ackMasterRun iters f pc).1 =
      iters.take ((ackMasterRun iters f pc).1.length) := by
  induction iters generalizing f pc with
  | nil => simp [ackMasterRun]
  | cons it rest ih =>
    by_cases hf : f < 6
    · simp only [ackMasterRun, hf, if_true, List.length_cons, List.take_succ_cons]
      rw [← ih]
    · simp [ackMasterRun, hf]

theorem ackMaster_exec_iff (iters : List MIter) (f pc i : Nat) :
    i < ((ackMasterRun iters f pc).1).length ↔
      (i < iters.length ∧
        f + countFail ((iters.take i).map (fun it => it.report)) < 6) := by
  rw [(ackMaster_bridge iters f pc).2, gsMaster_exec_iff]
  simp [List.map_take]

/-- Claim C1 counterexample: on five failed writes, a successful write, a
sixth failed write and one further iteration's worth of input, both
transmitter loops exit after the sixth cumulative failure even though no six
failures ever occur in a row (the longest failure run is 5), and after the
successful write the failure counter still holds 5 — a success does not
reset it. -/
theorem master_consecutive_reset_cex :
    (ackMasterRun c1Input 0 0).1.length < c1Input.length ∧
    maxFailRun ((ackMasterRun c1Input 0 0).1.map (fun it => it.report)) < 6 ∧
    (ackMasterRun [⟨false, none⟩, ⟨false, none⟩, ⟨false, none⟩, ⟨false, none⟩,
        ⟨false, none⟩, ⟨true, some 0⟩] 0 0).2.1 = 5 ∧
    (gsMasterRun [false, false, false, false, false, true, false, true] 0).1.length <
      8 ∧
    maxFailRun (gsMasterRun [false, false, false, false, false, true, false, true]
        0).1 < 6 := by
  refine ⟨by decide, by decide, by decide, by decide, by decide⟩

/-- Claim C1 (amended): in both transmitter loops (ACK-payloads `master` and
GettingStarted `master`) the failure counter counts the TOTAL number of
failed `radio.write` calls — a successful transmission does not reset it —
and iteration `i` of the loop body runs exactly when fewer than 6 failures
occurred among the previous iterations, so the loop aborts as soon as the
cumulative failure count reaches 6, not after 6 consecutive failures. -/
theorem master_abort_total_failures :
    (∀ (iters : List MIter) (i : Nat),
        (i < ((ackMasterRun iters 0 0).1).length ↔
          (i < iters.length ∧
            countFail ((iters.take i).map (fun it => it.report)) < 6)) ∧
        (ackMasterRun iters 0 0).1 =
          iters.take ((ackMasterRun iters 0 0).1.length)) ∧
    (∀ (rs : List Bool) (i : Nat),
        (i < ((gsMasterRun rs 0).1).length ↔
          (i < rs.length ∧ countFail (rs.take i) < 6)) ∧
        (gsMasterRun rs 0).1 = rs.take ((gsMasterRun rs 0).1.length)) := by
  constructor
  · intro iters i
    refine ⟨?_, ackMaster_take_eq iters 0 0⟩
    simpa using ackMaster_exec_iff iters 0 0 i
  · intro rs i
    refine ⟨?_, gsMaster_take_eq rs 0⟩
    simpa using gsMaster_exec_iff rs 0 i

end RF24

namespace RF24

theorem ackSlave_exec_iff (iters : List SIter) (start : Int) (pc i : Nat) :
    i < ((ackSlaveRun iters start pc).1).length ↔
      (i < iters.length ∧ ∀ j, j ≤ i → ∀ it,
          (iters.drop j).head? = some it →
          it.checkTime - lastReset start (iters.take j) < 6) := by
  induction iters generalizing start pc i with
  | nil => simp [ackSlaveRun]
  | cons it rest ih =>
    by_cases h6 : it.checkTime - start < 6
    · cases i with
      | zero =>
        simp only [ackSlaveRun, h6, if_true, List.length_cons]
        constructor
        · intro _
          refine ⟨Nat.succ_pos _, ?_⟩
          intro j hj it0 hhead
          have hj0 : j = 0 := Nat.le_zero.mp hj
          subst hj0
          simp only [List.drop_zero, List.head?_cons, Option.some.injEq] at hhead
          subst hhead
          exact h6
        · intro _
          exact Nat.succ_pos _
      | succ j =>
        simp only [ackSlaveRun, h6, if_true, List.length_cons,
          Nat.succ_lt_succ_iff]
        rw [ih]
        constructor
        · rintro ⟨hlen, hall⟩
          refine ⟨hlen, ?_⟩
          intro k hk it0 hhead
          cases k with
          | zero =>
            simp only [List.drop_zero, List.head?_cons, Option.some.injEq] at hhead
            subst hhead
            exact h6
          | succ m =>
            exact hall m (Nat.succ_le_succ_iff.mp hk) it0 hhead
        · rintro ⟨hlen, hall⟩
          refine ⟨hlen, ?_⟩
          intro k hk it0 hhead
          exact hall (k + 1) (Nat.succ_le_succ hk) it0 hhead
    · simp only [ackSlaveRun, h6, if_false, List.length_nil]
      constructor
      · intro h
        exact absurd h (Nat.not_lt_zero i)
      · rintro ⟨hlen, hall⟩
        exact absurd (hall 0 (Nat.zero_le _) it rfl) (by simpa using h6)

theorem ackSlave_take_eq (iters : List SIter) (start : Int) (pc : Nat) :
    (ackSlaveRun iters start pc).1 =
      iters.take ((ackSlaveRun iters start pc).1.length) := by
  induction iters generalizing start pc with
  | nil => simp [ackSlaveRun]
  | cons it rest ih =>
    by_cases h6 : it.checkTime - start < 6
    · simp only [ackSlaveRun, h6, if_true, List.length_cons, List.take_succ_cons]
      rw [← ih]
    · simp [ackSlaveRun, h6]

theorem gsSlave_exec_iff (iters : List GIter) (start : Int) (i : Nat) :
    i < (gsSlaveRun iters start).length ↔
      (i < iters.length ∧ ∀ j, j ≤ i → ∀ it,
          (iters.drop j).head? = some it →
          it.checkTime - lastResetG start (iters.take j) < 6) := by
  induction iters generalizing start i with
  | nil => simp [gsSlaveRun]
  | cons it rest ih =>
    by_cases h6 : it.checkTime - start < 6
    · cases i with
      | zero =>
        simp only [gsSlaveRun, h6, if_true, List.length_cons]
        constructor
        · intro _
          refine ⟨Nat.succ_pos _, ?_⟩
          intro j hj it0 hhead
          have hj0 : j = 0 := Nat.le_zero.mp hj
          subst hj0
          simp only [List.drop_zero, List.head?_cons, Option.some.injEq] at hhead
          subst hhead
          exact h6
        · intro _
          exact Nat.succ_pos _
      | succ j =>
        simp only [gsSlaveRun, h6, if_true, List.length_cons,
          Nat.succ_lt_succ_iff]
        rw [ih]
        constructor
        · rintro ⟨hlen, hall⟩
          refine ⟨hlen, ?_⟩
          intro k hk it0 hhead
          cases k with
          | zero =>
            simp only [List.drop_zero, List.head?_cons, Option.some.injEq] at hhead
            subst hhead
            exact h6
          | succ m =>
            exact hall m (Nat.succ_le_succ_iff.mp hk) it0 hhead
        · rintro ⟨hlen, hall⟩
          refine ⟨hlen, ?_⟩
          intro k hk it0 hhead
          exact hall (k + 1) (Nat.succ_le_succ hk) it0 hhead
    · simp only [gsSlaveRun, h6, if_false, List.length_nil]
      constructor
      · intro h
        exact absurd h (Nat.not_lt_zero i)
      · rintro ⟨hlen, hall⟩
        exact absurd (hall 0 (Nat.zero_le _) it rfl) (by simpa using h6)

theorem gsSlave_take_eq (iters : List GIter) (start : Int) :
    gsSlaveRun iters start =
      iters.take ((gsSlaveRun iters start).length) := by
  induction iters generalizing start with
  | nil => simp [gsSlaveRun]
  | cons it rest ih =>
    by_cases h6 : it.checkTime - start < 6
    · simp only [gsSlaveRun, h6, if_true, List.length_cons, List.take_succ_cons]
      rw [← ih]
    · simp [gsSlaveRun, h6]

/-- Claim C6: in both receiver loops (ACK-payloads `slave` and GettingStarted
`slave`), the executed iterations form a prefix of the poll trace; every
executed iteration begins with its `time(nullptr)` reading less than 6
seconds past the timer value — the timer being reset to a fresh
`time(nullptr)` reading by every received payload (`lastReset`) — and the
loop exits at the first condition check that finds 6 or more seconds
elapsed since the last reception (or since entry, if nothing was
received). -/
theorem slave_timeout_first_exceed :
    (∀ (iters : List SIter) (start : Int) (pc : Nat),
        (ackSlaveRun iters start pc).1 =
          iters.take ((ackSlaveRun iters start pc).1.length) ∧
        (∀ i, i < ((ackSlaveRun iters start pc).1).length →
            ∀ it, (iters.drop i).head? = some it →
              it.checkTime - lastReset start (iters.take i) < 6) ∧
        (((ackSlaveRun iters start pc).1).length < iters.length →
          ∀ it,
            (iters.drop ((ackSlaveRun iters start pc).1.length)).head? = some it →
            6 ≤ it.checkTime -
              lastReset start
                (iters.take ((ackSlaveRun iters start pc).1.length)))) ∧
    (∀ (iters : List GIter) (start : Int),
        gsSlaveRun iters start =
          iters.take ((gsSlaveRun iters start).length) ∧
        (∀ i, i < (gsSlaveRun iters start).length →
            ∀ it, (iters.drop i).head? = some it →
              it.checkTime - lastResetG start (iters.take i) < 6) ∧
        ((gsSlaveRun iters start).length < iters.length →
          ∀ it, (iters.drop ((gsSlaveRun iters start).length)).head? = some it →
            6 ≤ it.checkTime -
              lastResetG start (iters.take ((gsSlaveRun iters start).length)))) := by
  constructor
  · intro iters start pc
    refine ⟨ackSlave_take_eq iters start pc, ?_, ?_⟩
    · intro i hi it hh
      exact ((ackSlave_exec_iff iters start pc i).mp hi).2 i le_rfl it hh
    · intro hlen it hh
      by_contra hlt
      push_neg at hlt
      have hself : ¬ ((ackSlaveRun iters start pc).1.length <
          ((ackSlaveRun iters start pc).1).length) := lt_irrefl _
      apply hself
      rw [ackSlave_exec_iff]
      refine ⟨hlen, ?_⟩
      intro j hj it0 hh0
      rcases Nat.lt_or_ge j ((ackSlaveRun iters start pc).1.length) with hjn | hjn
      · exact ((ackSlave_exec_iff iters start pc j).mp hjn).2 j le_rfl it0 hh0
      · have hje : j = (ackSlaveRun iters start pc).1.length :=
          Nat.le_antisymm hj hjn
        subst hje
        rw [hh0] at hh
        cases hh
        exact hlt
  · intro iters start
    refine ⟨gsSlave_take_eq iters start, ?_, ?_⟩
    · intro i hi it hh
      exact ((gsSlave_exec_iff iters start i).mp hi).2 i le_rfl it hh
    · intro hlen it hh
      by_contra hlt
      push_neg at hlt
      have hself : ¬ ((gsSlaveRun iters start).length <
          (gsSlaveRun iters start).length) := lt_irrefl _
      apply hself
      rw [gsSlave_exec_iff]
      refine ⟨hlen, ?_⟩
      intro j hj it0 hh0
      rcases Nat.lt_or_ge j ((gsSlaveRun iters start).length) with hjn | hjn
      · exact ((gsSlave_exec_iff iters start j).mp hjn).2 j le_rfl it0 hh0
      · have hje : j = (gsSlaveRun iters start).length :=
          Nat.le_antisymm hj hjn
        subst hje
        rw [hh0] at hh
        cases hh
        exact hlt

/-- Witness for claim C6: on the concrete poll trace with condition checks at
times 0 and 10 (no receptions) and timer started at 0, the loop executes
only the first iteration, and the check not executed had 6 or more seconds
elapsed. -/
theorem slave_timeout_first_exceed_witness :
    6 ≤ (SIter.mk 10 none).checkTime -
      lastReset 0 (([⟨0, none⟩, ⟨10, none⟩] : List SIter).take
        ((ackSlaveRun [⟨0, none⟩, ⟨10, none⟩] 0 0).1.length)) :=
  (slave_timeout_first_exceed.1 [⟨0, none⟩, ⟨10, none⟩] 0 0).2.2 (by decide)
    (SIter.mk 10 none) (by decide)

end RF24

namespace RF24

theorem scanArgs_characterization (args : List CStr) :
    args.length % 2 = 0 → ∀ fn rn fr ro : Bool,
      (scanArgs args fn rn fr ro = ScanResult.invalid ↔
        (argPairs args).any
          (fun p => (isNodeOpt p.1 || isRoleOpt p.1) && badValue p.2) = true) ∧
      (∀ a b c d : Bool, scanArgs args fn rn fr ro = ScanResult.done a b c d →
        a = (fn || (argPairs args).any (fun p => isNodeOpt p.1)) ∧
        c = (fr || (argPairs args).any (fun p => isRoleOpt p.1))) := by
  induction args using argPairs.induct with
  | case1 opt val rest ih =>
    intro heven fn rn fr ro
    have heven' : rest.length % 2 = 0 := by
      simp only [List.length_cons] at heven
      omega
    have hih := ih heven'
    by_cases hn : opt = optShortNode ∨ opt = optLongNode
    · have hnb : isNodeOpt opt = true := by
        simp [isNodeOpt]
        tauto
      have hrb0 : isRoleOpt opt = false := by
        rcases hn with rfl | rfl <;> decide
      by_cases hv : cHead val - 48 ≤ 1
      · have hbv : badValue val = false := by
          simp [badValue]
          omega
        constructor
        · rw [show scanArgs (opt :: val :: rest) fn rn fr ro =
              scanArgs rest true (decide (cHead val - 48 = 1)) fr ro by
            simp [scanArgs, hn, hv]]
          rw [(hih true (decide (cHead val - 48 = 1)) fr ro).1]
          simp [argPairs, hnb, hbv]
        · intro a b c d hdone
          rw [show scanArgs (opt :: val :: rest) fn rn fr ro =
              scanArgs rest true (decide (cHead val - 48 = 1)) fr ro by
            simp [scanArgs, hn, hv]] at hdone
          have hac := (hih true (decide (cHead val - 48 = 1)) fr ro).2 a b c d hdone
          simp only [Bool.true_or] at hac
          simp [argPairs, hnb, hrb0]
          exact hac
      · have hbv : badValue val = true := by
          simp [badValue]
          omega
        constructor
        · rw [show scanArgs (opt :: val :: rest) fn rn fr ro =
              ScanResult.invalid by simp [scanArgs, hn, hv]]
          simp [argPairs, hnb, hbv]
        · intro a b c d hdone
          rw [show scanArgs (opt :: val :: rest) fn rn fr ro =
              ScanResult.invalid by simp [scanArgs, hn, hv]] at hdone
          exact absurd hdone (by simp)
    · by_cases hr : opt = optShortRole ∨ opt = optLongRole
      · have hnb : isNodeOpt opt = false := by
          rcases hr with rfl | rfl <;> decide
        have hrb : isRoleOpt opt = true := by
          simp [isRoleOpt]
          tauto
        by_cases hv : cHead val - 48 ≤ 1
        · have hbv : badValue val = false := by
            simp [badValue]
            omega
          constructor
          · rw [show scanArgs (opt :: val :: rest) fn rn fr ro =
                scanArgs rest fn rn true (decide (cHead val - 48 = 1)) by
              simp [scanArgs, hn, hr, hv]]
            rw [(hih fn rn true (decide (cHead val - 48 = 1))).1]
            simp [argPairs, hnb, hrb, hbv]
          · intro a b c d hdone
            rw [show scanArgs (opt :: val :: rest) fn rn fr ro =
                scanArgs rest fn rn true (decide (cHead val - 48 = 1)) by
              simp [scanArgs, hn, hr, hv]] at hdone
            have hac := (hih fn rn true (decide (cHead val - 48 = 1))).2 a b c d hdone
            simp only [Bool.true_or] at hac
            simp [argPairs, hnb, hrb]
            exact hac
        · have hbv : badValue val = true := by
            simp [badValue]
            omega
          constructor
          · rw [show scanArgs (opt :: val :: rest) fn rn fr ro =
                ScanResult.invalid by simp [scanArgs, hn, hr, hv]]
            simp [argPairs, hnb, hrb, hbv]
          · intro a b c d hdone
            rw [show scanArgs (opt :: val :: rest) fn rn fr ro =
                ScanResult.invalid by simp [scanArgs, hn, hr, hv]] at hdone
            exact absurd hdone (by simp)
      · have hnb : isNodeOpt opt = false := by
          simp [isNodeOpt]
          tauto
        have hrb : isRoleOpt opt = false := by
          simp [isRoleOpt]
          tauto
        constructor
        · rw [show scanArgs (opt :: val :: rest) fn rn fr ro =
              scanArgs rest fn rn fr ro by simp [scanArgs, hn, hr]]
          rw [(hih fn rn fr ro).1]
          simp [argPairs, hnb, hrb]
        · intro a b c d hdone
          rw [show scanArgs (opt :: val :: rest) fn rn fr ro =
              scanArgs rest fn rn fr ro by simp [scanArgs, hn, hr]] at hdone
          have := (hih fn rn fr ro).2 a b c d hdone
          simp [argPairs, hnb, hrb]
          exact this
  | case2 l h =>
    intro heven fn rn fr ro
    match l, h with
    | [], _ =>
      constructor
      · simp [scanArgs, argPairs]
      · intro a b c d hdone
        simp only [scanArgs, ScanResult.done.injEq] at hdone
        simp [argPairs]
        tauto
    | [x], h =>
      simp at heven
    | a :: b :: r, h =>
      exact absurd rfl (h a b r)

/-- Claim C2 counterexample: the invocation with arguments
<-n 1 -x 0> is malformed (it carries the unrecognized option <-x>), yet
`main` does not print the usage text: it proceeds to configure the radio
(`enableDynamicPayloads` is called) and enters role selection
(`setRole()` is called). -/
theorem ack_cli_unrecognized_cex :
    Act.printHelp ∉ (ackMain true [[112], [45, 110], [49], [45, 120], [48]] []).1 ∧
    Act.enableDynamicPayloads ∈
      (ackMain true [[112], [45, 110], [49], [45, 120], [48]] []).1 ∧
    Act.callSetRole ∈ (ackMain true [[112], [45, 110], [49], [45, 120], [48]] []).1 := by
  refine ⟨by decide, by decide, by decide⟩

theorem any_or_split {α : Type} (l : List α) (f g : α → Bool) :
    l.any (fun x => f x || g x) = (l.any f || l.any g) := by
  induction l with
  | nil => rfl
  | cons x xs ih =>
    simp only [List.any_cons, ih]
    cases f x <;> cases g x <;> cases xs.any f <;> cases xs.any g <;> rfl

theorem ackMain_odd (p : CStr) (args stdin : List CStr)
    (h0 : args.length ≠ 0) (h1 : args.length % 2 ≠ 0) :
    ackMain true (p :: args) stdin = ([Act.radioBegin, Act.printHelp], 0) := by
  simp only [ackMain, List.tail_cons]
  rw [if_pos h0, if_pos h1]

theorem ackMain_even (p : CStr) (args stdin : List CStr)
    (h0 : args.length ≠ 0) (h1 : ¬ args.length % 2 ≠ 0) :
    ackMain true (p :: args) stdin =
      (match scanArgs args false true false false with
       | ScanResult.invalid => ([Act.radioBegin, Act.printHelp], 0)
       | ScanResult.done a b c d =>
         if !a && !c then ([Act.radioBegin, Act.printHelp], 0)
         else (Act.radioBegin :: ackProceed a b c d stdin, 0)) := by
  simp only [ackMain, List.tail_cons]
  rw [if_pos h0, if_neg h1]

/-- Claim C2 (amended): with a non-empty argument list, `main` prints the
usage text and exits before configuring the radio or entering a role exactly
when the scan rejects the arguments: an odd number of arguments after the
program name, or a recognized `-n`/`--node`/`-r`/`--role` option whose
value's first character fails the `c - 48 <= 1` test, or no recognized
option in any scanned option position.  An unrecognized option accompanied
by a recognized one is silently skipped, and a non-<0>/<1> value whose first
character code is at most 49 is accepted, so those malformations are not
detected. -/
theorem ack_cli_help_iff (p : CStr) (args stdin : List CStr)
    (hne : args ≠ []) :
    ((ackMain true (p :: args) stdin).1 = [Act.radioBegin, Act.printHelp] ↔
      scanRejects args = true) := by
  have hlen : args.length ≠ 0 := by simpa using hne
  by_cases hpar : args.length % 2 = 0
  · have h2 : ¬ args.length % 2 ≠ 0 := by omega
    have hmain := ackMain_even p args stdin hlen h2
    have hchar := scanArgs_characterization args hpar false true false false
    rcases hscan : scanArgs args false true false false with _ | ⟨a, b, c, d⟩
    · rw [hscan] at hmain
      have hbad := hchar.1.mp hscan
      rw [hmain]
      constructor
      · intro _
        simp [scanRejects, hbad]
      · intro _
        rfl
    · rw [hscan] at hmain
      simp only [] at hmain
      have hac := hchar.2 a b c d hscan
      simp only [Bool.false_or] at hac
      have hnoinv : ¬ (scanArgs args false true false false = ScanResult.invalid) := by
        rw [hscan]
        simp
      have hbadf : (argPairs args).any
          (fun pr => (isNodeOpt pr.1 || isRoleOpt pr.1) && badValue pr.2) = false := by
        rcases hb : (argPairs args).any
            (fun pr => (isNodeOpt pr.1 || isRoleOpt pr.1) && badValue pr.2) with _ | _
        · rfl
        · exact absurd (hchar.1.mpr hb) hnoinv
      by_cases hfl : (!a && !c) = true
      · rw [if_pos hfl] at hmain
        have ha : a = false := by
          revert hfl
          cases a <;> cases c <;> decide
        have hc : c = false := by
          revert hfl
          cases a <;> cases c <;> decide
        rw [hmain]
        constructor
        · intro _
          have hnode : (argPairs args).any (fun pr => isNodeOpt pr.1) = false := by
            rw [ha] at hac
            exact hac.1.symm
          have hrole : (argPairs args).any (fun pr => isRoleOpt pr.1) = false := by
            rw [hc] at hac
            exact hac.2.symm
          have hflag : ((argPairs args).any
              (fun pr => isNodeOpt pr.1 || isRoleOpt pr.1)) = false := by
            rw [any_or_split, hnode, hrole]
            rfl
          simp [scanRejects, hbadf, hflag]
        · intro _
          rfl
      · rw [if_neg hfl] at hmain
        have hor : (a || c) = true := by
          revert hfl
          cases a <;> cases c <;> decide
        have hflag : ((argPairs args).any
            (fun pr => isNodeOpt pr.1 || isRoleOpt pr.1)) = true := by
          rw [any_or_split, ← hac.1, ← hac.2]
          exact hor
        rw [hmain]
        constructor
        · intro htr
          exfalso
          cases a <;> simp [ackProceed] at htr
        · intro hrej
          exfalso
          simp [scanRejects, hbadf, hflag] at hrej
          omega
  · have h2 : args.length % 2 ≠ 0 := hpar
    rw [ackMain_odd p args stdin hlen h2]
    constructor
    · intro _
      have hone : args.length % 2 = 1 := by omega
      simp [scanRejects, hone]
    · intro _
      rfl

/-- Witness for claim C2 (amended) at the concrete argument list
<-x 0>: no recognized option occurs, so the scan rejects and `main`
help-exits. -/
theorem ack_cli_help_iff_witness :
    (ackMain true [[112], [45, 120], [48]] []).1 = [Act.radioBegin, Act.printHelp] ↔
      scanRejects [[45, 120], [48]] = true :=
  ack_cli_help_iff [112] [[45, 120], [48]] [] (by decide)

/-- Claim C4 counterexample: invoking the `GettingStarted` example with the
role flag <-r 1> does not put it in the TX role: its `main` ignores the
argument vector and still obtains the role through the interactive
`setRole()` menu. -/
theorem gs_role_flag_cex :
    Act.callSetRole ∈ (gsMainArgv [[112], [45, 114], [49]] true).1 ∧
    Act.callMaster ∉ (gsMainArgv [[112], [45, 114], [49]] true).1 := by
  refine ⟨by decide, by decide⟩

/-- Claim C4 (amended): the ACK-payloads example accepts the two optional
flags and, on every invocation its argument scan accepts, falls back to an
interactive stdin prompt for each setting whose flag is absent: the
radio-number prompt occurs exactly when no `-n`/`--node` option was scanned,
the interactive `setRole()` menu runs exactly when no `-r`/`--role` option
was scanned, and a present role flag dispatches directly to `master()` or
`slave()`; with no arguments at all both fallbacks occur.  The
`GettingStarted` example accepts no command-line flags at all: its `main`
ignores the argument vector and always obtains the role from the
interactive menu. -/
theorem cli_flags_fallback :
    (∀ (p : CStr) (args stdin : List CStr) (fn rn fr ro : Bool),
        args.length % 2 = 0 →
        scanArgs args false true false false = ScanResult.done fn rn fr ro →
        (fn || fr) = true →
        (ackMain true (p :: args) stdin).1 =
          Act.radioBegin :: ackProceed fn rn fr ro stdin ∧
        fn = (argPairs args).any (fun pr => isNodeOpt pr.1) ∧
        fr = (argPairs args).any (fun pr => isRoleOpt pr.1) ∧
        (Act.promptNode ∈ (ackMain true (p :: args) stdin).1 ↔ fn = false) ∧
        (Act.callSetRole ∈ (ackMain true (p :: args) stdin).1 ↔ fr = false) ∧
        (fr = true →
          (if ro = true then Act.callMaster else Act.callSlave) ∈
            (ackMain true (p :: args) stdin).1)) ∧
    (∀ (p : CStr) (stdin : List CStr),
        Act.promptNode ∈ (ackMain true [p] stdin).1 ∧
        Act.callSetRole ∈ (ackMain true [p] stdin).1) ∧
    ((ackMain true [[112], [45, 110], [48], [45, 114], [49]] []).1 =
      [Act.radioBegin, Act.printProgName, Act.enableDynamicPayloads,
       Act.enableAckPayload, Act.setPALevel, Act.openWritingPipe false,
       Act.openReadingPipe true, Act.installSigHandler, Act.callMaster]) ∧
    (∀ (argv : List CStr) (beginOk : Bool), gsMainArgv argv beginOk = gsMain beginOk) ∧
    Act.callSetRole ∈ (gsMain true).1 := by
  refine ⟨?_, ?_, by decide, fun _ _ => rfl, by decide⟩
  · intro p args stdin fn rn fr ro hpar hscan hfl
    have hlen : args.length ≠ 0 := by
      intro h0
      rw [List.length_eq_zero] at h0
      subst h0
      simp only [scanArgs, ScanResult.done.injEq] at hscan
      obtain ⟨e1, -, e3, -⟩ := hscan
      rw [← e1, ← e3] at hfl
      exact absurd hfl (by decide)
    have h2 : ¬ args.length % 2 ≠ 0 := by omega
    have hmain := ackMain_even p args stdin hlen h2
    rw [hscan] at hmain
    simp only [] at hmain
    have hnfl : ¬ ((!fn && !fr) = true) := by
      revert hfl
      cases fn <;> cases fr <;> decide
    rw [if_neg hnfl] at hmain
    have htr : (ackMain true (p :: args) stdin).1 =
        Act.radioBegin :: ackProceed fn rn fr ro stdin := by
      rw [hmain]
    have hac := (scanArgs_characterization args hpar false true false false).2
      fn rn fr ro hscan
    simp only [Bool.false_or] at hac
    refine ⟨htr, hac.1, hac.2, ?_, ?_, ?_⟩
    · rw [htr]
      cases fn <;> cases fr <;> cases ro <;> simp [ackProceed]
    · rw [htr]
      cases fn <;> cases fr <;> cases ro <;> simp [ackProceed]
    · intro hfr
      subst hfr
      rw [htr]
      cases ro <;> simp [ackProceed]
  · intro p stdin
    constructor <;> simp [ackMain, ackProceed, List.mem_cons]

/-- Witness for claim C4 (amended) at the concrete invocation carrying only
the role flag <-r 1>: the scan finds the role flag but no node flag, so the
program still prompts for the radio number, skips the interactive role menu,
and dispatches directly to `master()`. -/
theorem cli_flags_fallback_witness :
    Act.promptNode ∈ (ackMain true [[112], [45, 114], [49]] []).1 ∧
    Act.callSetRole ∉ (ackMain true [[112], [45, 114], [49]] []).1 ∧
    Act.callMaster ∈ (ackMain true [[112], [45, 114], [49]] []).1 := by
  have h := cli_flags_fallback.1 [112] [[45, 114], [49]] [] false true true true
    (by decide) (by decide) (by decide)
  refine ⟨h.2.2.2.1.mpr rfl, ?_, ?_⟩
  · intro hmem
    exact absurd (h.2.2.2.2.1.mp hmem) (by decide)
  · have hm := h.2.2.2.2.2 rfl
    simpa using hm

/-- Claim C8: the `setRole()` menu dispatches on the first character of each
entered line: T/t calls `master()`, R/r calls `slave()`, Q/q exits the menu,
any other non-empty line prints the invalid-input message and re-prompts,
and an empty line re-prompts without dispatching. -/
theorem setRole_first_char_dispatch (line : CStr) (rest : List CStr) :
    (∀ c cs, line = c :: cs → (c = 84 ∨ c = 116) →
        setRoleTrace (line :: rest) =
          RoleEvent.menuPrompt :: RoleEvent.callMaster :: setRoleTrace rest) ∧
    (∀ c cs, line = c :: cs → (c = 82 ∨ c = 114) →
        setRoleTrace (line :: rest) =
          RoleEvent.menuPrompt :: RoleEvent.callSlave :: setRoleTrace rest) ∧
    (∀ c cs, line = c :: cs → (c = 81 ∨ c = 113) →
        setRoleTrace (line :: rest) = [RoleEvent.menuPrompt]) ∧
    (∀ c cs, line = c :: cs →
        c ∉ ([84, 116, 82, 114, 81, 113] : List Int) →
        setRoleTrace (line :: rest) =
          RoleEvent.menuPrompt :: RoleEvent.printInvalid c :: setRoleTrace rest) ∧
    (line = [] → setRoleTrace (line :: rest) =
        RoleEvent.menuPrompt :: setRoleTrace rest) := by
  refine ⟨?_, ?_, ?_, ?_, ?_⟩
  · rintro c cs rfl (rfl | rfl) <;> simp [setRoleTrace]
  · rintro c cs rfl (rfl | rfl) <;> simp [setRoleTrace]
  · rintro c cs rfl (rfl | rfl) <;> simp [setRoleTrace]
  · rintro c cs rfl hmem
    simp only [List.mem_cons, List.mem_singleton, not_or] at hmem
    obtain ⟨h1, h2, h3, h4, h5, h6⟩ := hmem
    simp only [setRoleTrace]
    rw [if_neg (by tauto), if_neg (by tauto), if_neg (by tauto)]
  · rintro rfl
    simp [setRoleTrace]

/-- Witness for claim C8 at concrete menu inputs: a line starting with T
dispatches to `master()`, and a line starting with q exits the menu even
with further input pending. -/
theorem setRole_first_char_dispatch_witness :
    setRoleTrace [[84]] =
      RoleEvent.menuPrompt :: RoleEvent.callMaster :: setRoleTrace [] ∧
    setRoleTrace [[113], [82]] = [RoleEvent.menuPrompt] :=
  ⟨(setRole_first_char_dispatch [84] []).1 84 [] rfl (Or.inl rfl),
   (setRole_first_char_dispatch [113] [[82]]).2.2.1 113 [] rfl (Or.inr rfl)⟩

end RF24

namespace RF24

set_option maxHeartbeats 1600000 in
/-- Claim C9 (amended): `getMicros` returns
((end.tv_sec - start.tv_sec) * 1000 + (end.tv_nsec - start.tv_nsec) / 1000)
reduced modulo 2^32, where the seconds subtraction is narrowed to 32 bits
but the nanosecond subtraction and its division by 1000 are performed in
wide SIGNED arithmetic (division truncating toward zero) and only the
result is narrowed to 32 bits — not in unsigned 32-bit arithmetic; and for
timestamps with nanosecond fields in range and end at or after start, the
returned count equals the truly elapsed number of whole microseconds
exactly when end.tv_sec = start.tv_sec: the seconds part is scaled by 1000
instead of 1000000, so whenever whole seconds elapse the value is not the
elapsed time in microseconds it is documented to be. -/
theorem getMicros_elapsed_iff (sSec sNsec eSec eNsec : Int)
    (hs0 : 0 ≤ sNsec) (hs1 : sNsec < 1000000000)
    (he0 : 0 ≤ eNsec) (he1 : eNsec < 1000000000)
    (hle : sSec * 1000000000 + sNsec ≤ eSec * 1000000000 + eNsec) :
    (((getMicros sSec sNsec eSec eNsec : Nat) : Int) =
        elapsedMicros sSec sNsec eSec eNsec) ↔ eSec = sSec := by
  simp only [getMicros, toUInt32, elapsedMicros]
  rcases le_or_lt 0 (eNsec - sNsec) with hd | hd
  · rw [Int.tdiv_eq_ediv hd (by omega)]
    omega
  · rw [show Int.tdiv (eNsec - sNsec) 1000 = -(Int.tdiv (sNsec - eNsec) 1000) by
      rw [← Int.neg_tdiv, neg_sub]]
    rw [Int.tdiv_eq_ediv (by omega) (by omega)]
    omega

/-- Witness for claim C9 (amended) at start = (0 s, 0 ns),
end = (3 s, 500000 ns): `getMicros` returns 3500 (3 * 1000 + 500), which is
not the elapsed 3000500 microseconds, and indeed end.tv_sec differs from
start.tv_sec. -/
theorem getMicros_elapsed_iff_witness :
    ¬ (((getMicros 0 0 3 500000 : Nat) : Int) = elapsedMicros 0 0 3 500000) :=
  fun h =>
    (by decide : ¬ ((3 : Int) = 0))
      ((getMicros_elapsed_iff 0 0 3 500000 (by decide) (by decide) (by decide)
        (by decide) (by decide)).mp h)

end RF24
